import Mathlib

/-!
Verification of the NETSASA payment-initiation service (repository
`Dulllu/netsasa`) against its natural-language specification.

The repository contains two near-duplicate service variants:
`src/app.py` (the "complete" backend: rate limiting, signature check,
status-code mapping) and `src/main.py` (the "Lipana" backend: no rate
limiting, verbatim status copy).  Both are embedded below, in the
namespaces `App` and `Main` respectively.

Modelling conventions:
- Python dicts keyed by strings become association lists
  `List (String × α)`; dict assignment is `aset`, conditional in-place
  mutation (`if k in d: d[k][...] = ...`) is `aupdate`.
- The SQLAlchemy transactions table becomes a `List` of records with
  `.query(...).first()` as `dbFind` and mutate-then-commit as `dbUpd`
  (both match on the `checkout_request_id` column, the unique index).
- `datetime.utcnow()` values are abstracted to an `Int` parameter `now`
  supplied by the caller.
- `asyncio.Queue` subscribers become `queues : List (String × List Msg)`:
  a key being present models the queue existing, and `queue.put`
  appends to the message list.
- Fallible steps (`await request.json()` raising on a malformed body)
  are modelled by an `Option` payload argument: `none` is the exception
  path of the handler's `try`/`except`.
- The user/loyalty table and the best-effort `activate_user_session`
  background task are not modelled: no claim mentions them and they do
  not touch the checkout registry fields any claim is about.
-/

/-- Association-list lookup, mirroring Python `d.get(k)`. -/
def alookup {α : Type} (k : String) : List (String × α) → Option α
  | [] => none
  | (k', v) :: rest => if k' = k then some v else alookup k rest

/-- Association-list assignment, mirroring Python `d[k] = v`
(replaces the first binding or appends a fresh one). -/
def aset {α : Type} (k : String) (v : α) : List (String × α) → List (String × α)
  | [] => [(k, v)]
  | (k', v') :: rest => if k' = k then (k, v) :: rest else (k', v') :: aset k v rest

/-- In-place update of an existing binding, mirroring Python mutation of
`d[k]` guarded by `if k in d:`; a no-op when the key is absent. -/
def aupdate {α : Type} (k : String) (f : α → α) : List (String × α) → List (String × α)
  | [] => []
  | (k', v') :: rest => if k' = k then (k', f v') :: rest else (k', v') :: aupdate k f rest

/-- First record matching a key column, mirroring
`db.query(T).filter(T.col == k).first()`. -/
def dbFind {α : Type} (key : α → String) (k : String) : List α → Option α
  | [] => none
  | t :: rest => if key t = k then some t else dbFind key k rest

/-- Mutate-and-commit of the first record matching a key column;
a no-op when no record matches. -/
def dbUpd {α : Type} (key : α → String) (k : String) (f : α → α) : List α → List α
  | [] => []
  | t :: rest => if key t = k then f t :: rest else t :: dbUpd key k f rest

/-- Python `str(x)` on an optional string-valued field: `str(None)` is the
literal string `"None"` (this is exactly what `str(result_code)` does in
`app.py` when both result-code casings are absent). -/
def pyStr : Option String → String
  | none => "None"
  | some s => s

/-- Python truthiness of an optional string: `None` and `""` are falsy. -/
def pyTruthy : Option String → Bool
  | none => false
  | some s => s ≠ ""

/-- Python `a or b` on optional strings (falls through on falsy `a`). -/
def pyOr (a b : Option String) : Option String :=
  if pyTruthy a then a else b

/-- The `TransactionStatus` enumeration shared by both service variants. -/
inductive TStatus
  | pending | processing | success | failed | cancelled | refunded
deriving DecidableEq, Repr

/-- The `.value` string of a `TransactionStatus` member. -/
def TStatus.value : TStatus → String
  | .pending => "pending"
  | .processing => "processing"
  | .success => "success"
  | .failed => "failed"
  | .cancelled => "cancelled"
  | .refunded => "refunded"

/-- Terminal statuses per the spec's glossary:
success, failed, cancelled, refunded. -/
def TStatus.isTerminal : TStatus → Bool
  | .success => true
  | .failed => true
  | .cancelled => true
  | .refunded => true
  | _ => false

/-- A message put on a subscriber queue by `notify_subscriber`.  Fields
cover the union of the dict keys the two variants ever send; keys absent
from a given call site are `none`. -/
structure Msg where
  status : Option String := none
  checkout_id : Option String := none
  mpesa_receipt : Option String := none
  transaction_id : Option String := none
  amount : Option Int := none
  timestamp : Option Int := none
  reason : Option String := none
  message : Option String := none
deriving DecidableEq, Repr

/-- Deliver a message to the subscriber queue for `cid` if one is
registered; the message is dropped otherwise (mirrors
`notify_subscriber` in both variants: `queue = subscribers.get(cid)`,
`if queue: await queue.put(message)`). -/
def notify_subscriber (cid : String) (m : Msg) (qs : List (String × List Msg)) :
    List (String × List Msg) :=
  aupdate cid (fun q => q ++ [m]) qs

/-- The HTTP response of a webhook endpoint: status code plus the
`received` field of the JSON body when present. -/
structure Response where
  code : Nat
  received : Option Bool := none
deriving DecidableEq, Repr

/-- One outcome of `await asyncio.wait_for(queue.get(), timeout=30.0)`
inside a streaming `event_generator` loop iteration. -/
inductive QueueOutcome
  | msg (m : Msg)
  | timeout
  | disconnect
deriving DecidableEq, Repr

/-- An event emitted on the SSE stream: the initial snapshot
(`{'status': ..., 'type': 'initial'}`, `app.py` only), a queue message
serialized as-is, or a keep-alive ping (with `status: waiting` in
`app.py`, without a status in `main.py`). -/
inductive SSEEvent
  | initial (statusStr : String)
  | data (m : Msg)
  | ping (withWaitingStatus : Bool)
deriving DecidableEq, Repr

/-- The status strings on which both `event_generator`s break out of the
streaming loop: `["success", "failed", "cancelled"]` (note: the source
omits `"refunded"` from this list). -/
def final_status_strings : List String := ["success", "failed", "cancelled"]

/-- Whether `data.get("status") in ["success", "failed", "cancelled"]`
holds for a queue message (a missing status is not in the list). -/
def isFinalEvt (m : Msg) : Bool :=
  match m.status with
  | some st => final_status_strings.contains st
  | none => false

/-- Whether a queue message carries a spec-terminal status string. -/
def isTerminalMsg (m : Msg) : Bool :=
  match m.status with
  | some st => ["success", "failed", "cancelled", "refunded"].contains st
  | none => false

namespace App

/-- The webhook payload fields `src/app.py` extracts (each already the
result of the `payload.get(PascalCase) or payload.get(camelCase)`
dual-casing chain). -/
structure Payload where
  checkout_id : Option String := none
  result_code : Option String := none
  result_desc : Option String := none
  mpesa_receipt : Option String := none
  transaction_id : Option String := none
  phone : Option String := none
  amount : Option Int := none
deriving DecidableEq, Repr

/-- A row of the `transactions` table as `src/app.py` reads and writes
it (columns no code path under any claim touches are omitted). -/
structure Transaction where
  checkout_request_id : String
  phone_number : String
  amount : Int
  package_id : Option String := none
  status : TStatus := .pending
  result_code : Option String := none
  result_desc : Option String := none
  mpesa_receipt_number : Option String := none
  transaction_date : Option Int := none
  created_at : Int := 0
  completed_at : Option Int := none
  raw_callback : Option Payload := none
deriving DecidableEq, Repr

/-- An entry of the in-memory `checkout_store` dict in `src/app.py`.
`mpesa_receipt` and `completed_at` keys are absent at creation and set
by the webhook handler. -/
structure Entry where
  status : TStatus
  transaction_id : Option String := none
  phone : String
  amount : Int
  created_at : Int := 0
  mpesa_receipt : Option String := none
  completed_at : Option Int := none
deriving DecidableEq, Repr

/-- The mutable state of the `src/app.py` service: the SQL
`transactions` table, the `checkout_store` dict, the `subscribers`
queues and the `rate_limit_store`. -/
structure AppState where
  db : List Transaction
  store : List (String × Entry)
  queues : List (String × List Msg)
  rate_limit_store : List (String × List Int)
deriving DecidableEq, Repr

/-- The fixed result-code table of `src/app.py` lines 584-590:
`status_map.get(str(result_code), TransactionStatus.FAILED)`. -/
def status_map (rc : String) : TStatus :=
  if rc = "0" then .success
  else if rc = "1" then .failed
  else if rc = "1032" then .cancelled
  else if rc = "1037" then .cancelled
  else .failed

/-- The message `auto_cancel_payment` publishes in `src/app.py`. -/
def cancelMsg : Msg :=
  { status := some "cancelled", reason := some "timeout",
    message := some "Payment was not completed in time" }

/-- The message the `src/app.py` webhook publishes after updating. -/
def webhookMsg (cid : String) (p : Payload) (now : Int) : Msg :=
  { status := some (status_map (pyStr p.result_code)).value,
    checkout_id := some cid,
    mpesa_receipt := p.mpesa_receipt,
    transaction_id := p.transaction_id,
    amount := p.amount,
    timestamp := some now }

/-- The database-row update the `src/app.py` webhook applies to a found
transaction: all result fields are overwritten unconditionally and
`completed_at` is set only when the new status is `success`. -/
def webhookDbUpdate (p : Payload) (now : Int) (new_status : TStatus)
    (t : Transaction) : Transaction :=
  let t' := { t with status := new_status,
                     result_code := some (pyStr p.result_code),
                     result_desc := p.result_desc,
                     mpesa_receipt_number := p.mpesa_receipt,
                     transaction_date := some now,
                     raw_callback := some p }
  if new_status = .success then { t' with completed_at := some now } else t'

/-- The database-row update the `src/app.py` auto-cancel task applies:
cancel only a row that is itself still pending. -/
def cancelDbUpdate (t : Transaction) : Transaction :=
  if t.status = .pending then { t with status := .cancelled } else t

/-- The `POST /api/webhook` handler of `src/app.py` (lines 547-652).
`isProd` is `settings.ENVIRONMENT == "production"` and `sigValid` the
outcome of `verify_webhook_signature`; a `none` body is the exception
path of the `try` block (e.g. `request.json()` raising on a malformed
body), which `app.py` turns into an HTTP 500 `HTTPException`. -/
def lipana_webhook (isProd sigValid : Bool) (now : Int) (body : Option Payload)
    (s : AppState) : Response × AppState :=
  if isProd && !sigValid then ({ code := 401 }, s)
  else
    match body with
    | none => ({ code := 500 }, s)
    | some p =>
      match p.checkout_id with
      | none => ({ code := 200, received := some false }, s)
      | some cid =>
        if cid = "" then ({ code := 200, received := some false }, s)
        else
          let new_status := status_map (pyStr p.result_code)
          ({ code := 200, received := some true },
           { s with
             db := dbUpd Transaction.checkout_request_id cid
               (webhookDbUpdate p now new_status) s.db,
             store := aupdate cid (fun e =>
               { e with status := new_status,
                        mpesa_receipt := p.mpesa_receipt,
                        completed_at := some now }) s.store,
             queues := notify_subscriber cid (webhookMsg cid p now) s.queues })

/-- The body of `auto_cancel_payment` in `src/app.py` (lines 729-752)
after its `asyncio.sleep` elapses: cancel the store entry only if it is
still pending, cancel the database row only if it too is still pending,
and notify the subscriber with `cancelMsg`. -/
def auto_cancel_payment (cid : String) (s : AppState) : AppState :=
  match alookup cid s.store with
  | none => s
  | some e =>
    if e.status = .pending then
      { s with
        store := aupdate cid (fun e' => { e' with status := .cancelled }) s.store,
        db := dbUpd Transaction.checkout_request_id cid cancelDbUpdate s.db,
        queues := notify_subscriber cid cancelMsg s.queues }
    else s

/-- `RATE_LIMIT_REQUESTS` (env default `"100"`). -/
def RATE_LIMIT_REQUESTS : Nat := 100

/-- `RATE_LIMIT_WINDOW` in seconds (env default `"60"`). -/
def RATE_LIMIT_WINDOW : Int := 60

/-- `check_rate_limit` of `src/app.py` (lines 253-270): drop timestamps
at or beyond the window, reject when the remaining count reaches the
limit, otherwise record the current request. -/
def check_rate_limit (client_id : String) (now : Int)
    (rls : List (String × List Int)) : Bool × List (String × List Int) :=
  let window_start := now - RATE_LIMIT_WINDOW
  let kept := ((alookup client_id rls).getD []).filter (fun t => window_start < t)
  if RATE_LIMIT_REQUESTS ≤ kept.length then (false, aset client_id kept rls)
  else (true, aset client_id (kept ++ [now]) rls)

/-- The gateway acknowledgment returned by
`lipana.transactions.initiate_stk_push`. -/
structure GatewayResult where
  CheckoutRequestID : Option String := none
  checkoutRequestID : Option String := none
  transactionId : Option String := none
deriving DecidableEq, Repr

/-- A validated `POST /api/pay` body (the pydantic phone validator is
upstream of everything the claims are about and is not modelled). -/
structure PaymentRequest where
  phone : String
  amount : Int
  package_id : Option String := none
deriving DecidableEq, Repr

/-- The observable outcome of one `POST /api/pay` call: HTTP status,
the `success` field of the body, whether the gateway push was invoked,
and whether an auto-cancel task was scheduled. -/
structure InitOutcome where
  httpCode : Nat
  success : Option Bool := none
  checkout_request_id : Option String := none
  gateway_called : Bool := false
  auto_cancel_scheduled : Bool := false
deriving DecidableEq, Repr

/-- The `POST /api/pay` handler of `src/app.py` (lines 376-455): rate
limit first (429 aborts before the gateway call and before any registry
write), then the gateway push, then the database row, store entry,
subscriber queue and auto-cancel scheduling.  A gateway reply without a
truthy checkout id raises `LipanaError`, caught and returned as a 200
`success=false` body with no registry write. -/
def initiate_payment (ip : String) (now : Int) (pay : PaymentRequest)
    (gw : GatewayResult) (s : AppState) : InitOutcome × AppState :=
  match check_rate_limit ip now s.rate_limit_store with
  | (false, rls') => ({ httpCode := 429 }, { s with rate_limit_store := rls' })
  | (true, rls') =>
    let s' : AppState := { s with rate_limit_store := rls' }
    match pyOr gw.CheckoutRequestID gw.checkoutRequestID with
    | none => ({ httpCode := 200, success := some false, gateway_called := true }, s')
    | some cid =>
      if cid = "" then
        ({ httpCode := 200, success := some false, gateway_called := true }, s')
      else
        ({ httpCode := 200, success := some true, checkout_request_id := some cid,
           gateway_called := true, auto_cancel_scheduled := true },
         { s' with
           db := s'.db ++ [{ checkout_request_id := cid, phone_number := pay.phone,
                             amount := pay.amount, package_id := pay.package_id,
                             status := .pending, created_at := now }],
           store := aset cid { status := .pending, transaction_id := gw.transactionId,
                               phone := pay.phone, amount := pay.amount,
                               created_at := now } s.store,
           queues := aset cid [] s.queues })

/-- `max_retries` in the `src/app.py` streaming loop. -/
def MAX_RETRIES : Nat := 3

/-- The streaming loop of `src/app.py`'s `event_generator` (lines
509-531), driven by the successive outcomes of the queue waits: a
message is emitted and ends the stream exactly when its status string
is in `final_status_strings`; a timeout emits a ping and consumes one
retry; a client disconnect ends the stream silently.  An exhausted
script means the generator is still blocked on the queue, having
emitted nothing further. -/
def genLoop : Nat → List QueueOutcome → List SSEEvent
  | _, [] => []
  | retry, o :: rest =>
    if MAX_RETRIES ≤ retry then []
    else
      match o with
      | .msg m => .data m :: (if isFinalEvt m then [] else genLoop retry rest)
      | .timeout => .ping true :: genLoop (retry + 1) rest
      | .disconnect => []

/-- The full `event_generator` of `src/app.py` (lines 500-535): first
the initial snapshot read from `checkout_store` (default `"pending"`),
then the streaming loop. -/
def event_generator (cid : String) (s : AppState) (script : List QueueOutcome) :
    List SSEEvent :=
  (SSEEvent.initial (match alookup cid s.store with
    | some e => e.status.value
    | none => "pending")) :: genLoop 0 script

end App

namespace Main

/-- The webhook JSON fields relevant to `src/main.py`'s handler.
`ResultCode`/`resultCode` are carried by the provider payload but the
handler never reads them (it reads only the fields below). -/
structure MPayload where
  CheckoutRequestID : Option String := none
  checkoutRequestID : Option String := none
  ResultCode : Option String := none
  resultCode : Option String := none
  status : Option String := none
  transactionId : Option String := none
  mpesaReceiptNumber : Option String := none
deriving DecidableEq, Repr

/-- An entry of `checkout_store` in `src/main.py`: the initiation path
writes `{status, transaction_id, phone, amount, created_at}` while the
webhook path overwrites the whole entry with
`{status, transaction_id, raw}`; absent keys are `none`. -/
structure MEntry where
  status : Option String := none
  transaction_id : Option String := none
  phone : Option String := none
  amount : Option Int := none
  created_at : Option Int := none
  raw : Option MPayload := none
deriving DecidableEq, Repr

/-- A row of the `transactions` table as `src/main.py` reads and writes
it; `status` is an `Option String` because the webhook assigns the
payload's `status` value verbatim (possibly `None`). -/
structure MTransaction where
  checkout_request_id : String
  phone_number : String
  amount : Int
  package_id : Option String := none
  status : Option String := some "pending"
  mpesa_receipt_number : Option String := none
  created_at : Int := 0
  completed_at : Option Int := none
  raw_callback : Option MPayload := none
deriving DecidableEq, Repr

/-- The mutable state of the `src/main.py` service. -/
structure MState where
  db : List MTransaction
  store : List (String × MEntry)
  queues : List (String × List Msg)
deriving DecidableEq, Repr

/-- The database-row update the `src/main.py` webhook applies to a found
transaction: the payload's `status` string is copied verbatim, and
`completed_at` is set only when that string is `"success"`. -/
def webhookDbUpdate (d : MPayload) (now : Int) (t : MTransaction) : MTransaction :=
  let t' := { t with status := d.status,
                     mpesa_receipt_number := d.mpesaReceiptNumber,
                     raw_callback := some d }
  if d.status = some "success" then { t' with completed_at := some now } else t'

/-- The `POST /api/webhook` handler of `src/main.py` (lines 368-401):
no signature check; the whole body is wrapped in `try`/`except` that
returns `{"received": True}` (HTTP 200) on any error; for a truthy
checkout id the store entry is replaced wholesale, the subscriber is
notified with `{"status": status}`, and a found database row gets the
payload's `status` copied verbatim (`completed_at` set only when that
string is `"success"`). -/
def lipana_webhook (now : Int) (body : Option MPayload) (s : MState) :
    Response × MState :=
  match body with
  | none => ({ code := 200, received := some true }, s)
  | some d =>
    match pyOr d.CheckoutRequestID d.checkoutRequestID with
    | none => ({ code := 200, received := some true }, s)
    | some cid =>
      if cid = "" then ({ code := 200, received := some true }, s)
      else
        ({ code := 200, received := some true },
         { db := dbUpd MTransaction.checkout_request_id cid (webhookDbUpdate d now) s.db,
           store := aset cid { status := d.status, transaction_id := d.transactionId,
                               raw := some d } s.store,
           queues := notify_subscriber cid { status := d.status } s.queues })

/-- The body of `auto_cancel_payment` in `src/main.py` (lines 459-476)
after its sleep: cancellation requires the store entry AND the database
row to both still be `"pending"`; only then are both set to
`"cancelled"` and `{"status": "cancelled"}` (no `reason` key) published. -/
def auto_cancel_payment (cid : String) (s : MState) : MState :=
  match alookup cid s.store with
  | none => s
  | some e =>
    if e.status = some "pending" then
      match dbFind MTransaction.checkout_request_id cid s.db with
      | none => s
      | some t =>
        if t.status = some "pending" then
          { db := dbUpd MTransaction.checkout_request_id cid
              (fun t' => { t' with status := some "cancelled" }) s.db,
            store := aupdate cid (fun e' => { e' with status := some "cancelled" }) s.store,
            queues := notify_subscriber cid { status := some "cancelled" } s.queues }
        else s
    else s

/-- The streaming loop of `src/main.py`'s `event_generator` (lines
408-419): a bare `while True` with no initial snapshot and no retry
cap; same break condition on `final_status_strings`; pings carry no
status field. -/
def genLoop : List QueueOutcome → List SSEEvent
  | [] => []
  | .msg m :: rest => .data m :: (if isFinalEvt m then [] else genLoop rest)
  | .timeout :: rest => .ping false :: genLoop rest
  | .disconnect :: _ => []

/-- The full `event_generator` of `src/main.py`. -/
def event_generator (script : List QueueOutcome) : List SSEEvent :=
  genLoop script

end Main

/-! Concrete sample states used by the counterexamples and witnesses. -/

/-- A store entry already in the terminal status `success`. -/
def sampleTerminalEntry : App.Entry :=
  { status := .success, transaction_id := some "TXN_A", phone := "0712345678",
    amount := 50, created_at := 100, mpesa_receipt := some "QABC123",
    completed_at := some 150 }

/-- The matching database row, also terminal. -/
def sampleTerminalTx : App.Transaction :=
  { checkout_request_id := "ws_1", phone_number := "0712345678", amount := 50,
    status := .success, mpesa_receipt_number := some "QABC123",
    created_at := 100, completed_at := some 150 }

/-- An `app.py` state holding the terminal checkout `ws_1` with a live
subscriber. -/
def sTerminal : App.AppState :=
  { db := [sampleTerminalTx], store := [("ws_1", sampleTerminalEntry)],
    queues := [("ws_1", [])], rate_limit_store := [] }

/-- A duplicate/late webhook payload carrying result code `"1"`. -/
def pFailed : App.Payload := { checkout_id := some "ws_1", result_code := some "1" }

/-- A freshly initiated (pending) store entry. -/
def samplePendingEntry : App.Entry :=
  { status := .pending, transaction_id := some "TXN_B", phone := "0712345678",
    amount := 50, created_at := 100 }

/-- The matching pending database row. -/
def samplePendingTx : App.Transaction :=
  { checkout_request_id := "ws_2", phone_number := "0712345678", amount := 50,
    created_at := 100 }

/-- An `app.py` state holding the pending checkout `ws_2` with a live
subscriber. -/
def sPending : App.AppState :=
  { db := [samplePendingTx], store := [("ws_2", samplePendingEntry)],
    queues := [("ws_2", [])], rate_limit_store := [] }

/-- A provider success callback (result code `"0"`) for `ws_2`. -/
def pSuccess : App.Payload :=
  { checkout_id := some "ws_2", result_code := some "0",
    mpesa_receipt := some "QXYZ789", transaction_id := some "TXN_B",
    phone := some "254712345678", amount := some 50 }

/-- Interleaving where the webhook commits before the auto-cancel timer
fires. -/
def sWebhookFirst : App.AppState :=
  App.auto_cancel_payment "ws_2"
    (App.lipana_webhook false true 200 (some pSuccess) sPending).2

/-- Interleaving where the auto-cancel timer commits before the webhook
arrives. -/
def sTimerFirst : App.AppState :=
  (App.lipana_webhook false true 200 (some pSuccess)
    (App.auto_cancel_payment "ws_2" sPending)).2

/-- A pending `main.py` store entry (initiation shape, with phone and
amount). -/
def samplePendingMEntry : Main.MEntry :=
  { status := some "pending", transaction_id := some "TXN_C",
    phone := some "0712345678", amount := some 50, created_at := some 100 }

/-- The matching pending `main.py` database row. -/
def samplePendingMTx : Main.MTransaction :=
  { checkout_request_id := "ws_2", phone_number := "0712345678", amount := 50,
    created_at := 100 }

/-- A `main.py` state holding the pending checkout `ws_2` with a live
subscriber. -/
def msPending : Main.MState :=
  { db := [samplePendingMTx], store := [("ws_2", samplePendingMEntry)],
    queues := [("ws_2", [])] }

/-- A provider callback for `ws_2` whose result code is `"0"` but whose
`status` field says `"pending"` (exercises `main.py`'s verbatim copy). -/
def mpPendingStatus : Main.MPayload :=
  { CheckoutRequestID := some "ws_2", ResultCode := some "0",
    status := some "pending" }

/-- A provider success callback for `ws_2` in `main.py`'s field shape. -/
def mpSuccess : Main.MPayload :=
  { CheckoutRequestID := some "ws_2", status := some "success",
    transactionId := some "TXN_C", mpesaReceiptNumber := some "QXYZ789" }

/-- An empty `main.py` state (no checkout known). -/
def msEmpty : Main.MState := { db := [], store := [], queues := [] }

/-- A webhook payload referencing a checkout id that no registry knows. -/
def mpUnknown : Main.MPayload :=
  { CheckoutRequestID := some "ws_404", status := some "success" }

/-- An empty `app.py` state. -/
def sEmptyApp : App.AppState :=
  { db := [], store := [], queues := [], rate_limit_store := [] }

/-- An `app.py` webhook payload referencing an unknown checkout id. -/
def pUnknown : App.Payload :=
  { checkout_id := some "ws_404", result_code := some "0" }

/-- A queue message with the terminal status `refunded`. -/
def refundedMsg : Msg := { status := some "refunded" }

/-- A queue message with the terminal status `success`. -/
def successMsg : Msg := { status := some "success", checkout_id := some "ws_2" }

/-- A rate-limit store in which IP `1.2.3.4` already has 100 requests
recorded at time 50, all inside the 60-second window of `now = 60`. -/
def sRateLimited : App.AppState :=
  { db := [], store := [], queues := [],
    rate_limit_store := [("1.2.3.4", List.replicate 100 (50 : Int))] }

/-- A validated payment request body. -/
def samplePayReq : App.PaymentRequest := { phone := "0712345678", amount := 50 }

/-- A gateway acknowledgment for a fresh checkout. -/
def sampleGw : App.GatewayResult :=
  { CheckoutRequestID := some "ws_9", transactionId := some "TXN_D" }

/-! Helper lemmas about the association-list and table operations. -/

theorem alookup_aupdate_self {α : Type} (k : String) (f : α → α)
    (l : List (String × α)) :
    alookup k (aupdate k f l) = (alookup k l).map f := by
  induction l with
  | nil => rfl
  | cons hd tl ih =>
    obtain ⟨k', v'⟩ := hd
    by_cases h : k' = k
    · simp [alookup, aupdate, h]
    · simp [alookup, aupdate, h, ih]

theorem aupdate_absent {α : Type} (k : String) (f : α → α) (l : List (String × α))
    (h : alookup k l = none) : aupdate k f l = l := by
  induction l with
  | nil => rfl
  | cons hd tl ih =>
    obtain ⟨k', v'⟩ := hd
    by_cases hk : k' = k
    · simp [alookup, hk] at h
    · simp only [alookup, if_neg hk] at h
      simp [aupdate, hk, ih h]

theorem alookup_aset_self {α : Type} (k : String) (v : α) (l : List (String × α)) :
    alookup k (aset k v l) = some v := by
  induction l with
  | nil => simp [aset, alookup]
  | cons hd tl ih =>
    obtain ⟨k', v'⟩ := hd
    by_cases hk : k' = k
    · simp [aset, alookup, hk]
    · simp [aset, alookup, hk, ih]

theorem dbFind_dbUpd_self {α : Type} (key : α → String) (k : String) (f : α → α)
    (l : List α) (hk : ∀ t, key t = k → key (f t) = k) :
    dbFind key k (dbUpd key k f l) = (dbFind key k l).map f := by
  induction l with
  | nil => rfl
  | cons t tl ih =>
    by_cases h : key t = k
    · simp [dbFind, dbUpd, h, hk t h]
    · simp [dbFind, dbUpd, h, ih]

theorem dbUpd_absent {α : Type} (key : α → String) (k : String) (f : α → α)
    (l : List α) (h : dbFind key k l = none) : dbUpd key k f l = l := by
  induction l with
  | nil => rfl
  | cons t tl ih =>
    by_cases hk : key t = k
    · simp [dbFind, hk] at h
    · simp only [dbFind, if_neg hk] at h
      simp [dbUpd, hk, ih h]

/-! Helper lemmas about the embedded operations. -/

theorem status_map_cases (rc : String) :
    App.status_map rc = .success ∨ App.status_map rc = .failed
      ∨ App.status_map rc = .cancelled := by
  unfold App.status_map
  split_ifs <;> simp

theorem status_map_ne_pending (rc : String) : App.status_map rc ≠ .pending := by
  rcases status_map_cases rc with h | h | h <;> simp [h]

theorem webhookMsg_terminal (cid : String) (p : App.Payload) (now : Int) :
    isTerminalMsg (App.webhookMsg cid p now) = true := by
  rcases status_map_cases (pyStr p.result_code) with h | h | h <;>
    simp [isTerminalMsg, App.webhookMsg, h, TStatus.value]

theorem webhookDbUpdate_key (p : App.Payload) (now : Int) (st : TStatus)
    (t : App.Transaction) :
    (App.webhookDbUpdate p now st t).checkout_request_id = t.checkout_request_id := by
  unfold App.webhookDbUpdate
  split <;> rfl

theorem webhookDbUpdate_completed_at (p : App.Payload) (now : Int) (st : TStatus)
    (t : App.Transaction) :
    (App.webhookDbUpdate p now st t).completed_at
      = if st = TStatus.success then some now else t.completed_at := by
  unfold App.webhookDbUpdate
  split <;> rfl

theorem webhookDbUpdate_frame (p : App.Payload) (now : Int) (st : TStatus)
    (t : App.Transaction) :
    ((App.webhookDbUpdate p now st t).phone_number,
     (App.webhookDbUpdate p now st t).amount,
     (App.webhookDbUpdate p now st t).package_id)
      = (t.phone_number, t.amount, t.package_id) := by
  unfold App.webhookDbUpdate
  split <;> rfl

theorem cancelDbUpdate_key (t : App.Transaction) :
    (App.cancelDbUpdate t).checkout_request_id = t.checkout_request_id := by
  unfold App.cancelDbUpdate
  split <;> rfl

theorem cancelDbUpdate_completed_at (t : App.Transaction) :
    (App.cancelDbUpdate t).completed_at = t.completed_at := by
  unfold App.cancelDbUpdate
  split <;> rfl

theorem cancelDbUpdate_frame (t : App.Transaction) :
    ((App.cancelDbUpdate t).phone_number, (App.cancelDbUpdate t).amount,
     (App.cancelDbUpdate t).package_id)
      = (t.phone_number, t.amount, t.package_id) := by
  unfold App.cancelDbUpdate
  split <;> rfl

theorem mainWebhookDbUpdate_key (d : Main.MPayload) (now : Int)
    (t : Main.MTransaction) :
    (Main.webhookDbUpdate d now t).checkout_request_id = t.checkout_request_id := by
  unfold Main.webhookDbUpdate
  split <;> rfl

theorem mainWebhookDbUpdate_frame (d : Main.MPayload) (now : Int)
    (t : Main.MTransaction) :
    ((Main.webhookDbUpdate d now t).phone_number, (Main.webhookDbUpdate d now t).amount,
     (Main.webhookDbUpdate d now t).package_id)
      = (t.phone_number, t.amount, t.package_id) := by
  unfold Main.webhookDbUpdate
  split <;> rfl

/-- Unfolding of the `app.py` webhook handler in the
authentication-passed, well-formed-body, truthy-checkout-id case. -/
theorem app_webhook_state (p : App.Payload) (cid : String) (now : Int)
    (s : App.AppState) (hcid : p.checkout_id = some cid) (hne : cid ≠ "") :
    App.lipana_webhook false true now (some p) s =
      ({ code := 200, received := some true },
       { s with
         db := dbUpd App.Transaction.checkout_request_id cid
           (App.webhookDbUpdate p now (App.status_map (pyStr p.result_code))) s.db,
         store := aupdate cid (fun e =>
           { e with status := App.status_map (pyStr p.result_code),
                    mpesa_receipt := p.mpesa_receipt,
                    completed_at := some now }) s.store,
         queues := notify_subscriber cid (App.webhookMsg cid p now) s.queues }) := by
  simp [App.lipana_webhook, hcid, hne, App.webhookMsg]

/-- Unfolding of the `main.py` webhook handler in the
well-formed-body, truthy-checkout-id case. -/
theorem main_webhook_state (d : Main.MPayload) (cid : String) (now : Int)
    (s : Main.MState)
    (hcid : pyOr d.CheckoutRequestID d.checkoutRequestID = some cid)
    (hne : cid ≠ "") :
    Main.lipana_webhook now (some d) s =
      ({ code := 200, received := some true },
       { db := dbUpd Main.MTransaction.checkout_request_id cid
           (Main.webhookDbUpdate d now) s.db,
         store := aset cid { status := d.status, transaction_id := d.transactionId,
                             raw := some d } s.store,
         queues := notify_subscriber cid { status := d.status } s.queues }) := by
  simp [Main.lipana_webhook, hcid, hne]

/-- The `app.py` auto-cancel task leaves the state untouched whenever the
store entry is absent or not pending. -/
theorem app_auto_cancel_nonpending (cid : String) (s : App.AppState)
    (h : (alookup cid s.store).map App.Entry.status ≠ some TStatus.pending) :
    App.auto_cancel_payment cid s = s := by
  unfold App.auto_cancel_payment
  cases he : alookup cid s.store with
  | none => rfl
  | some e =>
    rw [he] at h
    simp only [Option.map_some'] at h
    have hne : e.status ≠ TStatus.pending := fun hh => h (by rw [hh])
    simp [hne]

/-- Unfolding of the `app.py` auto-cancel task when the store entry is
still pending. -/
theorem app_auto_cancel_pending (cid : String) (s : App.AppState) (e : App.Entry)
    (he : alookup cid s.store = some e) (hp : e.status = TStatus.pending) :
    App.auto_cancel_payment cid s =
      { s with
        store := aupdate cid (fun e' => { e' with status := .cancelled }) s.store,
        db := dbUpd App.Transaction.checkout_request_id cid App.cancelDbUpdate s.db,
        queues := notify_subscriber cid App.cancelMsg s.queues } := by
  unfold App.auto_cancel_payment
  rw [he]
  simp [hp]

/-! Claim C1 -/

/-- Claim C1 as stated is false: the `app.py` webhook handler applies its
update unconditionally whenever the record exists.  Concretely, checkout
`ws_1` is already in the terminal status `success`, yet a subsequent
webhook delivery with result code `"1"` changes its store status to
`failed`. -/
theorem netsasa_C1_counterexample :
    ((alookup "ws_1" sTerminal.store).map App.Entry.status = some TStatus.success
      ∧ TStatus.success.isTerminal = true)
  ∧ ¬ ((alookup "ws_1"
        ((App.lipana_webhook false true 200 (some pFailed) sTerminal).2.store)).map
          App.Entry.status = some TStatus.success) := by decide

/-- Claim C1, amended: for a record whose store status is terminal, a late
auto-cancel firing changes nothing (the guard only ever mutates pending
records), but a subsequent webhook delivery applies its update regardless
of the current status, overwriting the store status with the mapped
result-code status. -/
theorem netsasa_C1_amended (s : App.AppState) (cid : String) (e : App.Entry)
    (he : alookup cid s.store = some e) (hterm : e.status.isTerminal = true) :
    App.auto_cancel_payment cid s = s
  ∧ ∀ (p : App.Payload) (now : Int), p.checkout_id = some cid → cid ≠ "" →
      (alookup cid ((App.lipana_webhook false true now (some p) s).2.store)).map
        App.Entry.status = some (App.status_map (pyStr p.result_code)) := by
  constructor
  · apply app_auto_cancel_nonpending
    have hne : e.status ≠ TStatus.pending := by
      intro hp
      rw [hp] at hterm
      exact absurd hterm (by decide)
    rw [he]
    simp [hne]
  · intro p now hcid hne
    rw [app_webhook_state p cid now s hcid hne]
    simp [alookup_aupdate_self, he]

/-- Witness for C1's amended theorem at the concrete terminal state. -/
theorem netsasa_C1_witness :
    (alookup "ws_1" sTerminal.store = some sampleTerminalEntry
      ∧ sampleTerminalEntry.status.isTerminal = true)
  ∧ App.auto_cancel_payment "ws_1" sTerminal = sTerminal
  ∧ (alookup "ws_1"
      ((App.lipana_webhook false true 200 (some pFailed) sTerminal).2.store)).map
        App.Entry.status = some (App.status_map (pyStr pFailed.result_code)) := by
  have h := netsasa_C1_amended sTerminal "ws_1" sampleTerminalEntry (by decide) (by decide)
  exact ⟨⟨by decide, by decide⟩, h.1, h.2 pFailed 200 (by decide) (by decide)⟩

/-! Claim C2 -/

/-- Claim C2 as stated is false: when the auto-cancel timer commits before
the webhook (the `sTimerFirst` interleaving), the webhook still applies a
second terminal transition, and the connected subscriber for the pending
checkout `ws_2` observes two terminal events instead of exactly one. -/
theorem netsasa_C2_counterexample :
    ((alookup "ws_2" sPending.store).map App.Entry.status = some TStatus.pending)
  ∧ (((alookup "ws_2" sWebhookFirst.queues).getD []).filter isTerminalMsg).length = 1
  ∧ (((alookup "ws_2" sTimerFirst.queues).getD []).filter isTerminalMsg).length = 2
  ∧ ¬ ((((alookup "ws_2" sTimerFirst.queues).getD []).filter isTerminalMsg).length = 1) := by
  decide

/-- Claim C2, amended: for a pending checkout with a connected subscriber,
if the webhook commits first the auto-cancel is a no-op and exactly one
terminal event is observed; if the auto-cancel commits first, the webhook
still commits its own transition on top of the cancellation, and the
subscriber observes two terminal events (cancelled, then the mapped
webhook status, which also becomes the final store status). -/
theorem netsasa_C2_amended (s : App.AppState) (cid : String) (e : App.Entry)
    (p : App.Payload) (now : Int) (q : List Msg)
    (he : alookup cid s.store = some e) (hp : e.status = TStatus.pending)
    (hq : alookup cid s.queues = some q)
    (hcid : p.checkout_id = some cid) (hne : cid ≠ "") :
    (App.auto_cancel_payment cid (App.lipana_webhook false true now (some p) s).2
        = (App.lipana_webhook false true now (some p) s).2
      ∧ alookup cid (App.lipana_webhook false true now (some p) s).2.queues
          = some (q ++ [App.webhookMsg cid p now]))
  ∧ (alookup cid
        (App.lipana_webhook false true now (some p)
          (App.auto_cancel_payment cid s)).2.queues
        = some (q ++ [App.cancelMsg, App.webhookMsg cid p now])
      ∧ (alookup cid
          (App.lipana_webhook false true now (some p)
            (App.auto_cancel_payment cid s)).2.store).map App.Entry.status
          = some (App.status_map (pyStr p.result_code)))
  ∧ isTerminalMsg App.cancelMsg = true
  ∧ isTerminalMsg (App.webhookMsg cid p now) = true := by
  refine ⟨⟨?_, ?_⟩, ⟨?_, ?_⟩, by decide, webhookMsg_terminal cid p now⟩
  · rw [app_webhook_state p cid now s hcid hne]
    apply app_auto_cancel_nonpending
    simp [alookup_aupdate_self, he, status_map_ne_pending]
  · rw [app_webhook_state p cid now s hcid hne]
    simp [notify_subscriber, alookup_aupdate_self, hq]
  · rw [app_auto_cancel_pending cid s e he hp,
        app_webhook_state p cid now _ hcid hne]
    simp [notify_subscriber, alookup_aupdate_self, hq]
  · rw [app_auto_cancel_pending cid s e he hp,
        app_webhook_state p cid now _ hcid hne]
    simp [alookup_aupdate_self, he]

/-- Witness for C2's amended theorem at the concrete pending state. -/
theorem netsasa_C2_witness :
    (alookup "ws_2" sPending.store = some samplePendingEntry
      ∧ samplePendingEntry.status = TStatus.pending
      ∧ alookup "ws_2" sPending.queues = some [])
  ∧ App.auto_cancel_payment "ws_2"
      (App.lipana_webhook false true 200 (some pSuccess) sPending).2
      = (App.lipana_webhook false true 200 (some pSuccess) sPending).2
  ∧ alookup "ws_2"
      (App.lipana_webhook false true 200 (some pSuccess)
        (App.auto_cancel_payment "ws_2" sPending)).2.queues
      = some ([] ++ [App.cancelMsg, App.webhookMsg "ws_2" pSuccess 200]) := by
  have h := netsasa_C2_amended sPending "ws_2" samplePendingEntry pSuccess 200 []
    (by decide) (by decide) (by decide) (by decide) (by decide)
  exact ⟨⟨by decide, by decide, by decide⟩, h.1.1, h.2.1.1⟩

/-! Claim C3 -/

/-- Claim C3 as stated is false for the `main.py` variant: when the
auto-cancel timer cancels the still-pending checkout `ws_2`, the event it
publishes is `{"status": "cancelled"}` with no `reason` key at all, not
`reason = "timeout"`. -/
theorem netsasa_C3_counterexample :
    ((alookup "ws_2" msPending.store).map Main.MEntry.status = some (some "pending"))
  ∧ ((alookup "ws_2" (Main.auto_cancel_payment "ws_2" msPending).store).map
        Main.MEntry.status = some (some "cancelled"))
  ∧ (alookup "ws_2" (Main.auto_cancel_payment "ws_2" msPending).queues
        = some [{ status := some "cancelled" }])
  ∧ ¬ (({ status := some "cancelled" } : Msg).reason = some "timeout") := by decide

/-- Claim C3, amended: in `app.py` the auto-cancel task cancels the record
and publishes `{status: cancelled, reason: timeout}` exactly when the
store entry is still pending, and is a complete no-op otherwise; in
`main.py` cancellation additionally requires the database row to still be
pending, and the published event is `{status: cancelled}` with no reason
field. -/
theorem netsasa_C3_amended (s : App.AppState) (ms : Main.MState)
    (cidA cidM : String) :
    ((alookup cidA s.store).map App.Entry.status = some TStatus.pending →
        (alookup cidA (App.auto_cancel_payment cidA s).store).map App.Entry.status
          = some TStatus.cancelled
      ∧ (App.auto_cancel_payment cidA s).queues
          = notify_subscriber cidA App.cancelMsg s.queues
      ∧ App.cancelMsg.status = some "cancelled"
      ∧ App.cancelMsg.reason = some "timeout")
  ∧ ((alookup cidA s.store).map App.Entry.status ≠ some TStatus.pending →
        App.auto_cancel_payment cidA s = s)
  ∧ (∀ (e : Main.MEntry) (t : Main.MTransaction),
      alookup cidM ms.store = some e → e.status = some "pending" →
      dbFind Main.MTransaction.checkout_request_id cidM ms.db = some t →
      t.status = some "pending" →
        (alookup cidM (Main.auto_cancel_payment cidM ms).store).map Main.MEntry.status
          = some (some "cancelled")
      ∧ (Main.auto_cancel_payment cidM ms).queues
          = notify_subscriber cidM { status := some "cancelled" } ms.queues) := by
  refine ⟨?_, app_auto_cancel_nonpending cidA s, ?_⟩
  · intro h
    cases he : alookup cidA s.store with
    | none => rw [he] at h; exact absurd h (by simp)
    | some e =>
      rw [he] at h
      simp only [Option.map_some', Option.some.injEq] at h
      rw [app_auto_cancel_pending cidA s e he h]
      refine ⟨?_, rfl, by decide, by decide⟩
      simp [alookup_aupdate_self, he]
  · intro e t he hp ht htp
    unfold Main.auto_cancel_payment
    rw [he, ht]
    simp [hp, htp, alookup_aupdate_self, he]

/-- Witness for C3's amended theorem at the concrete pending states. -/
theorem netsasa_C3_witness :
    ((alookup "ws_2" sPending.store).map App.Entry.status = some TStatus.pending
      ∧ alookup "ws_2" msPending.store = some samplePendingMEntry
      ∧ samplePendingMEntry.status = some "pending"
      ∧ dbFind Main.MTransaction.checkout_request_id "ws_2" msPending.db
          = some samplePendingMTx
      ∧ samplePendingMTx.status = some "pending")
  ∧ (alookup "ws_2" (App.auto_cancel_payment "ws_2" sPending).store).map
      App.Entry.status = some TStatus.cancelled
  ∧ (Main.auto_cancel_payment "ws_2" msPending).queues
      = notify_subscriber "ws_2" { status := some "cancelled" } msPending.queues := by
  have h := netsasa_C3_amended sPending msPending "ws_2" "ws_2"
  exact ⟨⟨by decide, by decide, by decide, by decide, by decide⟩,
    (h.1 (by decide)).1,
    (h.2.2 samplePendingMEntry samplePendingMTx (by decide) (by decide)
      (by decide) (by decide)).2⟩

/-! Claim C4 -/

/-- Claim C4 as stated is false for the `main.py` variant: its webhook
copies the payload's `status` field verbatim and never consults the
result code, so a callback for the known checkout `ws_2` carrying result
code `"0"` (which the fixed table maps to `success`) but status
`"pending"` leaves the record pending. -/
theorem netsasa_C4_counterexample :
    (mpPendingStatus.ResultCode = some "0"
      ∧ App.status_map (pyStr mpPendingStatus.ResultCode) = TStatus.success)
  ∧ ((alookup "ws_2"
        ((Main.lipana_webhook 200 (some mpPendingStatus) msPending).2.store)).map
          Main.MEntry.status = some (some "pending"))
  ∧ ¬ ((alookup "ws_2"
        ((Main.lipana_webhook 200 (some mpPendingStatus) msPending).2.store)).map
          Main.MEntry.status = some (some TStatus.success.value)) := by decide

/-- Claim C4, amended: in `app.py` the applied status is exactly the fixed
table `"0"→success`, `"1"→failed`, `"1032"/"1037"→cancelled`, with every
other code (including a missing one) mapping to `failed`, so the mapped
status is never pending or processing; in `main.py` the webhook instead
copies the payload's `status` field verbatim into the record and ignores
the result code entirely, so a record can stay pending. -/
theorem netsasa_C4_amended :
    (App.status_map "0" = TStatus.success ∧ App.status_map "1" = TStatus.failed
      ∧ App.status_map "1032" = TStatus.cancelled
      ∧ App.status_map "1037" = TStatus.cancelled)
  ∧ (∀ rc : String, rc ≠ "0" → rc ≠ "1" → rc ≠ "1032" → rc ≠ "1037" →
      App.status_map rc = TStatus.failed)
  ∧ (∀ rc : String,
      App.status_map rc ≠ TStatus.pending ∧ App.status_map rc ≠ TStatus.processing)
  ∧ (∀ (s : App.AppState) (p : App.Payload) (cid : String) (now : Int),
      p.checkout_id = some cid → cid ≠ "" →
      (alookup cid ((App.lipana_webhook false true now (some p) s).2.store)).map
        App.Entry.status
        = (alookup cid s.store).map (fun _ => App.status_map (pyStr p.result_code)))
  ∧ (∀ (ms : Main.MState) (d : Main.MPayload) (cid : String) (now : Int),
      pyOr d.CheckoutRequestID d.checkoutRequestID = some cid → cid ≠ "" →
      (alookup cid ((Main.lipana_webhook now (some d) ms).2.store)).map
        Main.MEntry.status = some d.status) := by
  refine ⟨by decide, ?_, ?_, ?_, ?_⟩
  · intro rc h0 h1 h2 h3
    simp [App.status_map, h0, h1, h2, h3]
  · intro rc
    rcases status_map_cases rc with h | h | h <;> simp [h]
  · intro s p cid now hcid hne
    rw [app_webhook_state p cid now s hcid hne]
    rw [alookup_aupdate_self]
    cases alookup cid s.store <;> simp
  · intro ms d cid now hcid hne
    rw [main_webhook_state d cid now ms hcid hne]
    simp [alookup_aset_self]

/-- Witness for C4's amended theorem: the unrecognized code `"9999"` maps
to `failed`, the `app.py` webhook stamps the mapped status onto `ws_2`,
and the `main.py` webhook stamps the verbatim payload status. -/
theorem netsasa_C4_witness :
    (("9999" : String) ≠ "0" ∧ ("9999" : String) ≠ "1"
      ∧ ("9999" : String) ≠ "1032" ∧ ("9999" : String) ≠ "1037"
      ∧ pSuccess.checkout_id = some "ws_2"
      ∧ pyOr mpPendingStatus.CheckoutRequestID mpPendingStatus.checkoutRequestID
          = some "ws_2")
  ∧ App.status_map "9999" = TStatus.failed
  ∧ (alookup "ws_2"
      ((App.lipana_webhook false true 200 (some pSuccess) sPending).2.store)).map
        App.Entry.status
      = (alookup "ws_2" sPending.store).map
          (fun _ => App.status_map (pyStr pSuccess.result_code))
  ∧ (alookup "ws_2"
      ((Main.lipana_webhook 200 (some mpPendingStatus) msPending).2.store)).map
        Main.MEntry.status = some mpPendingStatus.status := by
  refine ⟨⟨by decide, by decide, by decide, by decide, by decide, by decide⟩,
    netsasa_C4_amended.2.1 "9999" (by decide) (by decide) (by decide) (by decide),
    netsasa_C4_amended.2.2.2.1 sPending pSuccess "ws_2" 200 (by decide) (by decide),
    netsasa_C4_amended.2.2.2.2 msPending mpPendingStatus "ws_2" 200 (by decide)
      (by decide)⟩

/-! Claim C5 -/

/-- Claim C5 as stated is false for the `main.py` variant: a webhook POST
for the unknown checkout id `ws_404` is acknowledged with HTTP 200 but
creates a fresh `checkout_store` entry for that id. -/
theorem netsasa_C5_counterexample :
    (alookup "ws_404" msEmpty.store = none)
  ∧ (Main.lipana_webhook 200 (some mpUnknown) msEmpty).1
      = { code := 200, received := some true }
  ∧ ¬ (alookup "ws_404" ((Main.lipana_webhook 200 (some mpUnknown) msEmpty).2.store)
        = none) := by decide

/-- Claim C5, amended: a webhook POST whose checkout id is unknown is
answered HTTP 200 without raising in both variants; in `app.py` neither
the store nor the database is mutated, but in `main.py` a fresh
`checkout_store` entry `{status, transaction_id, raw}` is created for the
unknown id (the database stays untouched). -/
theorem netsasa_C5_amended :
    (∀ (s : App.AppState) (p : App.Payload) (cid : String) (now : Int),
      p.checkout_id = some cid → cid ≠ "" →
      alookup cid s.store = none →
      dbFind App.Transaction.checkout_request_id cid s.db = none →
        (App.lipana_webhook false true now (some p) s).1
          = { code := 200, received := some true }
      ∧ (App.lipana_webhook false true now (some p) s).2.store = s.store
      ∧ (App.lipana_webhook false true now (some p) s).2.db = s.db)
  ∧ (∀ (ms : Main.MState) (d : Main.MPayload) (cid : String) (now : Int),
      pyOr d.CheckoutRequestID d.checkoutRequestID = some cid → cid ≠ "" →
      alookup cid ms.store = none →
      dbFind Main.MTransaction.checkout_request_id cid ms.db = none →
        (Main.lipana_webhook now (some d) ms).1
          = { code := 200, received := some true }
      ∧ alookup cid ((Main.lipana_webhook now (some d) ms).2.store)
          = some { status := d.status, transaction_id := d.transactionId,
                   raw := some d }
      ∧ (Main.lipana_webhook now (some d) ms).2.db = ms.db) := by
  constructor
  · intro s p cid now hcid hne hstore hdb
    rw [app_webhook_state p cid now s hcid hne]
    exact ⟨rfl, aupdate_absent cid _ s.store hstore,
      dbUpd_absent _ cid _ s.db hdb⟩
  · intro ms d cid now hcid hne hstore hdb
    rw [main_webhook_state d cid now ms hcid hne]
    exact ⟨rfl, alookup_aset_self cid _ ms.store,
      dbUpd_absent _ cid _ ms.db hdb⟩

/-- Witness for C5's amended theorem at the empty states and the unknown
checkout id `ws_404`. -/
theorem netsasa_C5_witness :
    (pUnknown.checkout_id = some "ws_404"
      ∧ alookup "ws_404" sEmptyApp.store = none
      ∧ dbFind App.Transaction.checkout_request_id "ws_404" sEmptyApp.db = none
      ∧ pyOr mpUnknown.CheckoutRequestID mpUnknown.checkoutRequestID = some "ws_404"
      ∧ alookup "ws_404" msEmpty.store = none
      ∧ dbFind Main.MTransaction.checkout_request_id "ws_404" msEmpty.db = none)
  ∧ ((App.lipana_webhook false true 300 (some pUnknown) sEmptyApp).1
      = { code := 200, received := some true }
    ∧ (App.lipana_webhook false true 300 (some pUnknown) sEmptyApp).2.store
      = sEmptyApp.store
    ∧ (App.lipana_webhook false true 300 (some pUnknown) sEmptyApp).2.db
      = sEmptyApp.db)
  ∧ alookup "ws_404" ((Main.lipana_webhook 300 (some mpUnknown) msEmpty).2.store)
      = some { status := mpUnknown.status, transaction_id := mpUnknown.transactionId,
               raw := some mpUnknown } := by
  refine ⟨⟨by decide, by decide, by decide, by decide, by decide, by decide⟩,
    netsasa_C5_amended.1 sEmptyApp pUnknown "ws_404" 300 (by decide) (by decide)
      (by decide) (by decide),
    (netsasa_C5_amended.2 msEmpty mpUnknown "ws_404" 300 (by decide) (by decide)
      (by decide) (by decide)).2.1⟩

/-! Claim C6 -/

/-- Claim C6 as stated is false for the `app.py` variant: an authenticated
webhook POST whose body cannot be parsed makes the handler's `except`
block raise `HTTPException(500)`, surfacing the processing error as a
non-2xx response. -/
theorem netsasa_C6_counterexample :
    (App.lipana_webhook false true 0 none sEmptyApp).1.code = 500
  ∧ ¬ ((App.lipana_webhook false true 0 none sEmptyApp).1.code = 200) := by decide

/-- Claim C6, amended: the `main.py` webhook always responds HTTP 200 (its
`except` clause returns the acknowledgment body even when processing
raises), but the `app.py` webhook responds HTTP 500 when processing
raises, even after authentication passed. -/
theorem netsasa_C6_amended :
    (∀ (now : Int) (body : Option Main.MPayload) (ms : Main.MState),
        (Main.lipana_webhook now body ms).1.code = 200)
  ∧ (∀ (isProd sigValid : Bool) (now : Int) (s : App.AppState),
        (isProd && !sigValid) = false →
        (App.lipana_webhook isProd sigValid now none s).1.code = 500) := by
  constructor
  · intro now body ms
    cases body with
    | none => rfl
    | some d =>
      simp only [Main.lipana_webhook]
      cases pyOr d.CheckoutRequestID d.checkoutRequestID with
      | none => rfl
      | some cid =>
        by_cases h : cid = "" <;> simp [h]
  · intro isProd sigValid now s hauth
    simp [App.lipana_webhook, hauth]

/-- Witness for C6's amended theorem: in development mode (no signature
check) a malformed body yields HTTP 500 from `app.py`. -/
theorem netsasa_C6_witness :
    ((false && !true) = false)
  ∧ (Main.lipana_webhook 0 none msEmpty).1.code = 200
  ∧ (App.lipana_webhook false true 0 none sEmptyApp).1.code = 500 := by
  exact ⟨by decide, netsasa_C6_amended.1 0 none msEmpty,
    netsasa_C6_amended.2 false true 0 sEmptyApp (by decide)⟩

/-! Claim C7 -/

/-- Claim C7 as stated is false: when the auto-cancel task cancels the
pending checkout `ws_2`, both the store entry and the database row end in
the terminal status `cancelled` with `completed_at` still null, so
"terminal iff completed_at set" fails in the terminal-implies-set
direction. -/
theorem netsasa_C7_counterexample :
    ((alookup "ws_2" (App.auto_cancel_payment "ws_2" sPending).store).map
        App.Entry.status = some TStatus.cancelled)
  ∧ TStatus.cancelled.isTerminal = true
  ∧ ((alookup "ws_2" (App.auto_cancel_payment "ws_2" sPending).store).map
        App.Entry.completed_at = some none)
  ∧ ((dbFind App.Transaction.checkout_request_id "ws_2"
        (App.auto_cancel_payment "ws_2" sPending).db).map
        App.Transaction.completed_at = some none) := by decide

/-- Claim C7, amended: `completed_at` is set only by the webhook path —
in the `app.py` memory store on every webhook-applied status, and in the
database only when the mapped status is `success`; transitions into
`failed` or `cancelled` in the database, and every auto-cancel
transition, leave `completed_at` unchanged (null for a normally created
record), so a terminal record can have `completed_at` null. -/
theorem netsasa_C7_amended (s : App.AppState) (cid : String) (p : App.Payload)
    (now : Int) (hcid : p.checkout_id = some cid) (hne : cid ≠ "") :
    ((alookup cid ((App.lipana_webhook false true now (some p) s).2.store)).map
        App.Entry.completed_at = (alookup cid s.store).map (fun _ => some now))
  ∧ (App.status_map (pyStr p.result_code) = TStatus.success →
      (dbFind App.Transaction.checkout_request_id cid
          ((App.lipana_webhook false true now (some p) s).2.db)).map
        App.Transaction.completed_at
        = (dbFind App.Transaction.checkout_request_id cid s.db).map
            (fun _ => some now))
  ∧ (App.status_map (pyStr p.result_code) ≠ TStatus.success →
      (dbFind App.Transaction.checkout_request_id cid
          ((App.lipana_webhook false true now (some p) s).2.db)).map
        App.Transaction.completed_at
        = (dbFind App.Transaction.checkout_request_id cid s.db).map
            App.Transaction.completed_at)
  ∧ ((alookup cid (App.auto_cancel_payment cid s).store).map App.Entry.completed_at
      = (alookup cid s.store).map App.Entry.completed_at)
  ∧ ((dbFind App.Transaction.checkout_request_id cid
        (App.auto_cancel_payment cid s).db).map App.Transaction.completed_at
      = (dbFind App.Transaction.checkout_request_id cid s.db).map
          App.Transaction.completed_at) := by
  refine ⟨?_, ?_, ?_, ?_, ?_⟩
  · rw [app_webhook_state p cid now s hcid hne, alookup_aupdate_self]
    cases alookup cid s.store <;> simp
  · intro hsucc
    rw [app_webhook_state p cid now s hcid hne,
        dbFind_dbUpd_self _ _ _ _ (fun t ht => by rw [webhookDbUpdate_key, ht])]
    cases dbFind App.Transaction.checkout_request_id cid s.db with
    | none => rfl
    | some t => simp [webhookDbUpdate_completed_at, hsucc]
  · intro hsucc
    rw [app_webhook_state p cid now s hcid hne,
        dbFind_dbUpd_self _ _ _ _ (fun t ht => by rw [webhookDbUpdate_key, ht])]
    cases dbFind App.Transaction.checkout_request_id cid s.db with
    | none => rfl
    | some t => simp [webhookDbUpdate_completed_at, hsucc]
  · cases he : alookup cid s.store with
    | none =>
      rw [app_auto_cancel_nonpending cid s (by rw [he]; simp)]
      simp [he]
    | some e =>
      by_cases hp : e.status = TStatus.pending
      · rw [app_auto_cancel_pending cid s e he hp, alookup_aupdate_self, he]
        rfl
      · rw [app_auto_cancel_nonpending cid s (by rw [he]; simp [hp])]
        simp [he]
  · cases he : alookup cid s.store with
    | none =>
      rw [app_auto_cancel_nonpending cid s (by rw [he]; simp)]
    | some e =>
      by_cases hp : e.status = TStatus.pending
      · rw [app_auto_cancel_pending cid s e he hp,
            dbFind_dbUpd_self _ _ _ _ (fun t ht => by rw [cancelDbUpdate_key, ht])]
        cases dbFind App.Transaction.checkout_request_id cid s.db with
        | none => rfl
        | some t => simp [cancelDbUpdate_completed_at]
      · rw [app_auto_cancel_nonpending cid s (by rw [he]; simp [hp])]

/-- Witness for C7's amended theorem: the failed webhook on `ws_2` leaves
the database `completed_at` untouched while stamping the store one. -/
theorem netsasa_C7_witness :
    (pFailed.checkout_id = some "ws_1"
      ∧ App.status_map (pyStr pFailed.result_code) ≠ TStatus.success)
  ∧ ((alookup "ws_1"
        ((App.lipana_webhook false true 500 (some pFailed) sTerminal).2.store)).map
        App.Entry.completed_at
      = (alookup "ws_1" sTerminal.store).map (fun _ => some 500))
  ∧ ((dbFind App.Transaction.checkout_request_id "ws_1"
        ((App.lipana_webhook false true 500 (some pFailed) sTerminal).2.db)).map
        App.Transaction.completed_at
      = (dbFind App.Transaction.checkout_request_id "ws_1" sTerminal.db).map
          App.Transaction.completed_at) := by
  have h := netsasa_C7_amended sTerminal "ws_1" pFailed 500 (by decide) (by decide)
  exact ⟨⟨by decide, by decide⟩, h.1, h.2.2.1 (by decide)⟩

/-! Claim C8 -/

/-- Claim C8 as stated is false for the `main.py` variant: the webhook
replaces the whole store entry, so after a success callback for `ws_2`
the entry no longer contains the original phone and amount. -/
theorem netsasa_C8_counterexample :
    ((alookup "ws_2" msPending.store).map (fun e => (e.phone, e.amount))
      = some (some "0712345678", some 50))
  ∧ ((alookup "ws_2" ((Main.lipana_webhook 200 (some mpSuccess) msPending).2.store)).map
      (fun e => (e.phone, e.amount)) = some (none, none))
  ∧ ¬ ((alookup "ws_2"
        ((Main.lipana_webhook 200 (some mpSuccess) msPending).2.store)).map
        (fun e => (e.phone, e.amount)) = some (some "0712345678", some 50)) := by decide

/-- Claim C8, amended: in `app.py` both the webhook and the auto-cancel
preserve the store entry's phone and amount and the database row's
phone_number, amount and package_id; in `main.py` the webhook preserves
those database columns but replaces the whole store entry, dropping phone
and amount. -/
theorem netsasa_C8_amended :
    (∀ (s : App.AppState) (p : App.Payload) (cid : String) (now : Int),
      p.checkout_id = some cid → cid ≠ "" →
        ((alookup cid ((App.lipana_webhook false true now (some p) s).2.store)).map
            (fun e => (e.phone, e.amount))
          = (alookup cid s.store).map (fun e => (e.phone, e.amount)))
      ∧ ((dbFind App.Transaction.checkout_request_id cid
            ((App.lipana_webhook false true now (some p) s).2.db)).map
            (fun t => (t.phone_number, t.amount, t.package_id))
          = (dbFind App.Transaction.checkout_request_id cid s.db).map
              (fun t => (t.phone_number, t.amount, t.package_id))))
  ∧ (∀ (s : App.AppState) (cid : String),
        ((alookup cid (App.auto_cancel_payment cid s).store).map
            (fun e => (e.phone, e.amount))
          = (alookup cid s.store).map (fun e => (e.phone, e.amount)))
      ∧ ((dbFind App.Transaction.checkout_request_id cid
            (App.auto_cancel_payment cid s).db).map
            (fun t => (t.phone_number, t.amount, t.package_id))
          = (dbFind App.Transaction.checkout_request_id cid s.db).map
              (fun t => (t.phone_number, t.amount, t.package_id))))
  ∧ (∀ (ms : Main.MState) (d : Main.MPayload) (cid : String) (now : Int),
      pyOr d.CheckoutRequestID d.checkoutRequestID = some cid → cid ≠ "" →
        (alookup cid ((Main.lipana_webhook now (some d) ms).2.store)).map
          (fun e => (e.phone, e.amount)) = some (none, none)
      ∧ ((dbFind Main.MTransaction.checkout_request_id cid
            ((Main.lipana_webhook now (some d) ms).2.db)).map
            (fun t => (t.phone_number, t.amount, t.package_id))
          = (dbFind Main.MTransaction.checkout_request_id cid ms.db).map
              (fun t => (t.phone_number, t.amount, t.package_id)))) := by
  refine ⟨?_, ?_, ?_⟩
  · intro s p cid now hcid hne
    rw [app_webhook_state p cid now s hcid hne]
    constructor
    · rw [alookup_aupdate_self]
      cases alookup cid s.store <;> rfl
    · rw [dbFind_dbUpd_self _ _ _ _ (fun t ht => by rw [webhookDbUpdate_key, ht])]
      cases dbFind App.Transaction.checkout_request_id cid s.db with
      | none => rfl
      | some t =>
        simp only [Option.map_some']
        rw [webhookDbUpdate_frame]
  · intro s cid
    cases he : alookup cid s.store with
    | none =>
      rw [app_auto_cancel_nonpending cid s (by rw [he]; simp)]
      exact ⟨by simp [he], rfl⟩
    | some e =>
      by_cases hp : e.status = TStatus.pending
      · rw [app_auto_cancel_pending cid s e he hp]
        constructor
        · rw [alookup_aupdate_self, he]
          rfl
        · rw [dbFind_dbUpd_self _ _ _ _ (fun t ht => by rw [cancelDbUpdate_key, ht])]
          cases dbFind App.Transaction.checkout_request_id cid s.db with
          | none => rfl
          | some t =>
            simp only [Option.map_some']
            rw [cancelDbUpdate_frame]
      · rw [app_auto_cancel_nonpending cid s (by rw [he]; simp [hp])]
        exact ⟨by simp [he], rfl⟩
  · intro ms d cid now hcid hne
    rw [main_webhook_state d cid now ms hcid hne]
    constructor
    · rw [alookup_aset_self]
      rfl
    · rw [dbFind_dbUpd_self _ _ _ _ (fun t ht => by rw [mainWebhookDbUpdate_key, ht])]
      cases dbFind Main.MTransaction.checkout_request_id cid ms.db with
      | none => rfl
      | some t =>
        simp only [Option.map_some']
        rw [mainWebhookDbUpdate_frame]

/-- Witness for C8's amended theorem: the success webhook on `ws_2`
preserves phone and amount in `app.py` but drops them from the `main.py`
store entry. -/
theorem netsasa_C8_witness :
    (pSuccess.checkout_id = some "ws_2"
      ∧ pyOr mpSuccess.CheckoutRequestID mpSuccess.checkoutRequestID = some "ws_2")
  ∧ ((alookup "ws_2"
        ((App.lipana_webhook false true 200 (some pSuccess) sPending).2.store)).map
        (fun e => (e.phone, e.amount))
      = (alookup "ws_2" sPending.store).map (fun e => (e.phone, e.amount)))
  ∧ ((alookup "ws_2" (App.auto_cancel_payment "ws_2" sPending).store).map
        (fun e => (e.phone, e.amount))
      = (alookup "ws_2" sPending.store).map (fun e => (e.phone, e.amount)))
  ∧ (alookup "ws_2" ((Main.lipana_webhook 200 (some mpSuccess) msPending).2.store)).map
      (fun e => (e.phone, e.amount)) = some (none, none) := by
  exact ⟨⟨by decide, by decide⟩,
    (netsasa_C8_amended.1 sPending pSuccess "ws_2" 200 (by decide) (by decide)).1,
    (netsasa_C8_amended.2.1 sPending "ws_2").1,
    (netsasa_C8_amended.2.2 msPending mpSuccess "ws_2" 200 (by decide) (by decide)).1⟩

/-! Claim C9 -/

/-- In the `app.py` streaming loop, a queue-delivered event whose status
string is in the break list is always the last emitted event. -/
theorem app_genLoop_final_last (script : List QueueOutcome) :
    ∀ (retry : Nat) (pre post : List SSEEvent) (m : Msg),
      App.genLoop retry script = pre ++ SSEEvent.data m :: post →
      isFinalEvt m = true → post = [] := by
  induction script with
  | nil =>
    intro retry pre post m h _
    exact absurd h (by simp [App.genLoop])
  | cons o rest ih =>
    intro retry pre post m h hm
    cases o with
    | msg m' =>
      rw [show App.genLoop retry (QueueOutcome.msg m' :: rest)
            = if App.MAX_RETRIES ≤ retry then []
              else SSEEvent.data m' ::
                (if isFinalEvt m' then [] else App.genLoop retry rest)
          from rfl] at h
      by_cases hr : App.MAX_RETRIES ≤ retry
      · rw [if_pos hr] at h
        exact absurd h (by simp)
      · rw [if_neg hr] at h
        cases pre with
        | nil =>
          rw [List.nil_append] at h
          simp only [List.cons.injEq, SSEEvent.data.injEq] at h
          obtain ⟨rfl, h2⟩ := h
          rw [if_pos hm] at h2
          exact h2.symm
        | cons x pre' =>
          rw [List.cons_append] at h
          simp only [List.cons.injEq] at h
          obtain ⟨-, h2⟩ := h
          by_cases hf : isFinalEvt m'
          · rw [if_pos hf] at h2
            exact absurd h2.symm (by simp)
          · rw [if_neg hf] at h2
            exact ih retry pre' post m h2 hm
    | timeout =>
      rw [show App.genLoop retry (QueueOutcome.timeout :: rest)
            = if App.MAX_RETRIES ≤ retry then []
              else SSEEvent.ping true :: App.genLoop (retry + 1) rest
          from rfl] at h
      by_cases hr : App.MAX_RETRIES ≤ retry
      · rw [if_pos hr] at h
        exact absurd h (by simp)
      · rw [if_neg hr] at h
        cases pre with
        | nil =>
          rw [List.nil_append] at h
          simp at h
        | cons x pre' =>
          rw [List.cons_append] at h
          simp only [List.cons.injEq] at h
          exact ih (retry + 1) pre' post m h.2 hm
    | disconnect =>
      rw [show App.genLoop retry (QueueOutcome.disconnect :: rest)
            = if App.MAX_RETRIES ≤ retry then [] else []
          from rfl, ite_self] at h
      exact absurd h (by simp)

/-- Same statement for the `main.py` streaming loop. -/
theorem main_genLoop_final_last (script : List QueueOutcome) :
    ∀ (pre post : List SSEEvent) (m : Msg),
      Main.genLoop script = pre ++ SSEEvent.data m :: post →
      isFinalEvt m = true → post = [] := by
  induction script with
  | nil =>
    intro pre post m h _
    exact absurd h (by simp [Main.genLoop])
  | cons o rest ih =>
    intro pre post m h hm
    cases o with
    | msg m' =>
      rw [show Main.genLoop (QueueOutcome.msg m' :: rest)
            = SSEEvent.data m' :: (if isFinalEvt m' then [] else Main.genLoop rest)
          from rfl] at h
      cases pre with
      | nil =>
        rw [List.nil_append] at h
        simp only [List.cons.injEq, SSEEvent.data.injEq] at h
        obtain ⟨rfl, h2⟩ := h
        rw [if_pos hm] at h2
        exact h2.symm
      | cons x pre' =>
        rw [List.cons_append] at h
        simp only [List.cons.injEq] at h
        obtain ⟨-, h2⟩ := h
        by_cases hf : isFinalEvt m'
        · rw [if_pos hf] at h2
          exact absurd h2.symm (by simp)
        · rw [if_neg hf] at h2
          exact ih pre' post m h2 hm
    | timeout =>
      rw [show Main.genLoop (QueueOutcome.timeout :: rest)
            = SSEEvent.ping false :: Main.genLoop rest from rfl] at h
      cases pre with
      | nil =>
        rw [List.nil_append] at h
        simp at h
      | cons x pre' =>
        rw [List.cons_append] at h
        simp only [List.cons.injEq] at h
        exact ih pre' post m h.2 hm
    | disconnect =>
      exact absurd h (by simp [Main.genLoop])

/-- Claim C9 as stated is false: `refunded` is missing from the break
list `["success", "failed", "cancelled"]`, so after emitting an event
with the terminal status `refunded` the `app.py` stream keeps going and
emits a further event. -/
theorem netsasa_C9_counterexample :
    TStatus.refunded.isTerminal = true
  ∧ App.event_generator "ws_2" sPending
      [QueueOutcome.msg refundedMsg, QueueOutcome.msg { status := some "processing" }]
      = [SSEEvent.initial "pending", SSEEvent.data refundedMsg,
         SSEEvent.data { status := some "processing" }]
  ∧ ¬ (App.event_generator "ws_2" sPending
        [QueueOutcome.msg refundedMsg, QueueOutcome.msg { status := some "processing" }]
        = [SSEEvent.initial "pending", SSEEvent.data refundedMsg]) := by decide

/-- Claim C9, amended: after emitting a queue-delivered event whose
status string is `success`, `failed` or `cancelled`, both variants'
handlers emit no further events and close the connection; events with
status `refunded` (and the initial snapshot event of `app.py`) do not
terminate the stream, because the code's break list omits `refunded`. -/
theorem netsasa_C9_amended :
    (∀ (cid : String) (s : App.AppState) (script : List QueueOutcome)
        (pre post : List SSEEvent) (m : Msg),
        App.event_generator cid s script = pre ++ SSEEvent.data m :: post →
        isFinalEvt m = true → post = [])
  ∧ (∀ (script : List QueueOutcome) (pre post : List SSEEvent) (m : Msg),
        Main.event_generator script = pre ++ SSEEvent.data m :: post →
        isFinalEvt m = true → post = [])
  ∧ isFinalEvt refundedMsg = false := by
  refine ⟨?_, ?_, by decide⟩
  · intro cid s script pre post m h hm
    unfold App.event_generator at h
    cases pre with
    | nil =>
      rw [List.nil_append] at h
      simp at h
    | cons x pre' =>
      rw [List.cons_append] at h
      simp only [List.cons.injEq] at h
      exact app_genLoop_final_last script 0 pre' post m h.2 hm
  · intro script pre post m h hm
    exact main_genLoop_final_last script pre post m h hm

/-- Witness for C9's amended theorem: a success event delivered on the
queue is the last event of the concrete stream. -/
theorem netsasa_C9_witness :
    (App.event_generator "ws_2" sPending [QueueOutcome.msg successMsg]
        = [SSEEvent.initial "pending"] ++ SSEEvent.data successMsg :: []
      ∧ Main.event_generator [QueueOutcome.msg successMsg]
        = [] ++ SSEEvent.data successMsg :: []
      ∧ isFinalEvt successMsg = true)
  ∧ ([] : List SSEEvent) = []
  ∧ ([] : List SSEEvent) = [] := by
  exact ⟨⟨by decide, by decide, by decide⟩,
    netsasa_C9_amended.1 "ws_2" sPending [QueueOutcome.msg successMsg]
      [SSEEvent.initial "pending"] [] successMsg (by decide) (by decide),
    netsasa_C9_amended.2.1 [QueueOutcome.msg successMsg] [] [] successMsg
      (by decide) (by decide)⟩

/-! Claim C10 -/

/-- Unfolding of `check_rate_limit` in the rejecting case. -/
theorem check_rate_limit_reject (ip : String) (now : Int)
    (rls : List (String × List Int))
    (h : App.RATE_LIMIT_REQUESTS ≤
      (((alookup ip rls).getD []).filter
        (fun t => now - App.RATE_LIMIT_WINDOW < t)).length) :
    App.check_rate_limit ip now rls
      = (false, aset ip (((alookup ip rls).getD []).filter
          (fun t => now - App.RATE_LIMIT_WINDOW < t)) rls) := by
  simp [App.check_rate_limit, h]

/-- Unfolding of `check_rate_limit` in the admitting case. -/
theorem check_rate_limit_allow (ip : String) (now : Int)
    (rls : List (String × List Int))
    (h : (((alookup ip rls).getD []).filter
      (fun t => now - App.RATE_LIMIT_WINDOW < t)).length
      < App.RATE_LIMIT_REQUESTS) :
    App.check_rate_limit ip now rls
      = (true, aset ip ((((alookup ip rls).getD []).filter
          (fun t => now - App.RATE_LIMIT_WINDOW < t)) ++ [now]) rls) := by
  simp [App.check_rate_limit, Nat.not_le.mpr h]

/-- Claim C10 holds: once a client IP has `RATE_LIMIT_REQUESTS` (100)
requests inside the `RATE_LIMIT_WINDOW` (60 s) window, `POST /api/pay`
responds 429 without calling the gateway and without touching the
database, the store or the subscriber queues; and the rate decision
counts exactly the timestamps strictly inside the window, so requests
older than the window never count against the limit. -/
theorem netsasa_C10_rate_limit (s : App.AppState) (ip : String) (now : Int)
    (pay : App.PaymentRequest) (gw : App.GatewayResult)
    (hfull : App.RATE_LIMIT_REQUESTS ≤
      (((alookup ip s.rate_limit_store).getD []).filter
        (fun t => now - App.RATE_LIMIT_WINDOW < t)).length) :
    ((App.initiate_payment ip now pay gw s).1.httpCode = 429
      ∧ (App.initiate_payment ip now pay gw s).1.gateway_called = false
      ∧ (App.initiate_payment ip now pay gw s).2.db = s.db
      ∧ (App.initiate_payment ip now pay gw s).2.store = s.store
      ∧ (App.initiate_payment ip now pay gw s).2.queues = s.queues)
  ∧ (∀ (ip2 : String) (now2 : Int) (rls : List (String × List Int)),
      (App.check_rate_limit ip2 now2 rls).1 = true ↔
      (((alookup ip2 rls).getD []).filter
        (fun t => now2 - App.RATE_LIMIT_WINDOW < t)).length
        < App.RATE_LIMIT_REQUESTS) := by
  constructor
  · unfold App.initiate_payment
    rw [check_rate_limit_reject ip now s.rate_limit_store hfull]
    exact ⟨rfl, rfl, rfl, rfl, rfl⟩
  · intro ip2 now2 rls
    by_cases h : App.RATE_LIMIT_REQUESTS ≤
        (((alookup ip2 rls).getD []).filter
          (fun t => now2 - App.RATE_LIMIT_WINDOW < t)).length
    · rw [check_rate_limit_reject ip2 now2 rls h]
      constructor
      · intro hfalse
        exact absurd hfalse (by simp)
      · intro hlt
        exact absurd hlt (by omega)
    · rw [check_rate_limit_allow ip2 now2 rls (by omega)]
      constructor
      · intro _
        omega
      · intro _
        rfl

/-- Witness for C10: IP `1.2.3.4` with 100 in-window requests is rejected
with 429, the gateway is never called, and the registry is untouched. -/
theorem netsasa_C10_witness :
    (App.RATE_LIMIT_REQUESTS ≤
      (((alookup "1.2.3.4" sRateLimited.rate_limit_store).getD []).filter
        (fun t => (60 : Int) - App.RATE_LIMIT_WINDOW < t)).length)
  ∧ (App.initiate_payment "1.2.3.4" 60 samplePayReq sampleGw sRateLimited).1.httpCode
      = 429
  ∧ (App.initiate_payment "1.2.3.4" 60 samplePayReq sampleGw sRateLimited).1.gateway_called
      = false
  ∧ (App.initiate_payment "1.2.3.4" 60 samplePayReq sampleGw sRateLimited).2.store
      = sRateLimited.store := by
  have h := netsasa_C10_rate_limit sRateLimited "1.2.3.4" 60 samplePayReq sampleGw
    (by decide)
  exact ⟨by decide, h.1.1, h.1.2.1, h.1.2.2.2.1⟩
